import Mathlib

/-!
Shallow embedding of `src/stressweb.py` (HTTP stress tool, class `PacketSender`).

Modelling conventions:
* A single HTTP request performed by the client library is abstracted by its
  observable behaviour `HttpOutcome`: either a response carrying an integer
  status code, or a raised exception (`TransportError`).
* Python exceptions are modelled with `Except`: a function that can raise
  returns `Except RunError _`; a function that catches everything is total.
* Python `float` arithmetic in `print_stats` is modelled over `ℚ`; the claims
  concern the division guard and the division-by-zero fault, both of which are
  exact, not rounding behaviour.
* Machine integers from `argparse` (`type=int`) are unbounded in Python, so
  `Int` is the faithful type for `--concurrency` and `--batch-size`;
  the request count is taken as `Nat` (claims restrict it to `>= 0`).
-/

namespace StressWeb

/-- An exception raised at or below the HTTP client boundary during one request:
connection refusal, DNS failure, timeout, malformed response.  The classifier in
the source catches every `Exception` uniformly, so the precise variant is
irrelevant to classification. -/
inductive TransportError
  | timeout
  | connectionError
  | dnsFailure
  | malformedResponse
  deriving DecidableEq

/-- The observable behaviour of one HTTP request issued through the client
library: a response with its status code, or a raised transport exception. -/
abbrev HttpOutcome := Except TransportError Nat

/-- `PacketSender.send_single_packet` (src/stressweb.py lines 22-34), as a
function of the stored `self.method` and of the behaviour of the underlying
request.  The whole body sits in `try ... except Exception: return False`, so:
a received status `< 400` yields `True`, a received status `>= 400` yields
`False`, a raised exception yields `False`, and a method that is neither
`"GET"` nor `"POST"` leaves `response` unbound so the `response.status_code`
access raises `UnboundLocalError`, which the `except Exception` also catches,
yielding `False`.  The function is total: it never propagates an error. -/
def send_single_packet (method : String) (resp : HttpOutcome) : Bool :=
  if method = "GET" ∨ method = "POST" then
    match resp with
    | Except.ok status => decide (status < 400)
    | Except.error _ => false
  else
    false

/-- `PacketSender.send_single_packet_async` (src/stressweb.py lines 51-61).
The `try` body returns `response.status < 400` for `"GET"` and `"POST"`, and
`except Exception: return False` absorbs every raised exception; but when the
stored method is neither `"GET"` nor `"POST"` the `if/elif` falls through
without executing any `return`, so the coroutine returns Python `None`
(modelled `Option.none`) -- no exception is raised in that case. -/
def send_single_packet_async (method : String) (resp : HttpOutcome) : Option Bool :=
  if method = "GET" ∨ method = "POST" then
    match resp with
    | Except.ok status => some (decide (status < 400))
    | Except.error _ => some false
  else
    none

/-- One element of the list returned by
`asyncio.gather(*tasks, return_exceptions=True)` (src/stressweb.py line 74):
either the value returned by a `send_single_packet_async` coroutine (a Python
`bool` or `None`, i.e. `Option Bool`), or an exception object collected by
`gather` instead of being propagated. -/
inductive GatherResult
  | ret (v : Option Bool)
  | exc (e : TransportError)
  deriving DecidableEq

/-- The Python identity test `r is True` used by the fold at line 77: it holds
exactly for the boolean `True`, and for nothing else (`False`, `None`,
exception objects). -/
def is_True : GatherResult → Bool
  | GatherResult.ret (some true) => true
  | _ => false

/-- The three packet counters of `PacketSender` (src/stressweb.py lines 16-18),
all initialised to `0` by `__init__`. -/
structure Stats where
  sent_packets : Nat
  success_packets : Nat
  failed_packets : Nat
  deriving DecidableEq

/-- The counters as `__init__` leaves them: all zero. -/
def initStats : Stats := { sent_packets := 0, success_packets := 0, failed_packets := 0 }

/-- The per-batch counter update of `send_batch_async`
(src/stressweb.py lines 76-78):
`sent_packets += current_batch`,
`success_packets += sum(1 for r in results if r is True)`,
`failed_packets += sum(1 for r in results if r is not True)`. -/
def foldBatch (current_batch : Nat) (results : List GatherResult) (s : Stats) : Stats :=
  { sent_packets := s.sent_packets + current_batch,
    success_packets := s.success_packets + (results.filter is_True).length,
    failed_packets := s.failed_packets + (results.filter (fun r => !is_True r)).length }

/-- The results that `asyncio.gather` hands back for the batch starting at
request index `i` with `current` tasks: one `GatherResult` per task, drawn from
an oracle `res` giving the result of the `j`-th request attempt of the run.
`gather` returns exactly one slot per task, in task order. -/
def batchResults (res : Nat → GatherResult) (i current : Nat) : List GatherResult :=
  (List.range current).map (fun k => res (i + k))

/-- The batch loop of `send_batch_async` (src/stressweb.py lines 71-82):
`for i in range(0, self.num_packets, batch_size)` with
`current_batch = min(batch_size, self.num_packets - i)`, folding each batch's
gathered results into the counters.  Modelled for a positive step
`batch_size`; the guard `i < num_packets ∧ 0 < batch_size` is exactly the
condition under which the Python loop body runs again.  The progress `print`
inside the body divides by `num_packets`, which is positive whenever the body
runs (`i < num_packets`), so it never faults and is not modelled. -/
def sendLoop (res : Nat → GatherResult) (num_packets batch_size i : Nat) (s : Stats) : Stats :=
  if h : i < num_packets ∧ 0 < batch_size then
    sendLoop res num_packets batch_size (i + batch_size)
      (foldBatch (min batch_size (num_packets - i))
        (batchResults res i (min batch_size (num_packets - i))) s)
  else
    s
termination_by num_packets - i
decreasing_by simp_wf; omega

/-- The same loop, returning the list of counter states observed right after
each batch fold (the state in which the progress line of line 81 is printed),
in batch order. -/
def sendLoopTrace (res : Nat → GatherResult) (num_packets batch_size i : Nat) (s : Stats) :
    List Stats :=
  if h : i < num_packets ∧ 0 < batch_size then
    foldBatch (min batch_size (num_packets - i))
        (batchResults res i (min batch_size (num_packets - i))) s ::
      sendLoopTrace res num_packets batch_size (i + batch_size)
        (foldBatch (min batch_size (num_packets - i))
          (batchResults res i (min batch_size (num_packets - i))) s)
  else
    []
termination_by num_packets - i
decreasing_by simp_wf; omega

/-- The sizes `current_batch = min(batch_size, num_packets - i)` taken by the
loop of lines 71-72, from start index `i` on, in order. -/
def batchSizesFrom (num_packets batch_size i : Nat) : List Nat :=
  if h : i < num_packets ∧ 0 < batch_size then
    min batch_size (num_packets - i) :: batchSizesFrom num_packets batch_size (i + batch_size)
  else
    []
termination_by num_packets - i
decreasing_by simp_wf; omega

/-- The batch-size partition produced by a whole run: the loop starts at
`i = 0`. -/
def batchList (num_packets batch_size : Nat) : List Nat :=
  batchSizesFrom num_packets batch_size 0

/-- A Python exception that escapes `send_batch_async` or `print_stats`. -/
inductive RunError
  /-- `ValueError: range() arg 3 must not be zero`, raised by
  `range(0, n, 0)` at line 71 when `batch_size == 0`. -/
  | valueError
  /-- `ZeroDivisionError`, raised by `print_stats` (lines 95-96) when
  `sent_packets == 0`. -/
  | zeroDivisionError
  deriving DecidableEq

/-- The dispatch part of `PacketSender.send_batch_async`
(src/stressweb.py lines 63-83): the batch loop over
`range(0, num_packets, batch_size)`.  `range` raises `ValueError` when the
step is `0`; a negative step makes `range(0, n, step)` empty, so the body
never runs and the counters stay at their current (initial) values; a positive
step runs the loop modelled by `sendLoop`.  (Line 85 then calls
`print_stats`; that composition is `send_batch_async` below.) -/
def send_batch_async_dispatch (res : Nat → GatherResult) (num_packets : Nat)
    (batch_size : Int) : Except RunError Stats :=
  if batch_size = 0 then
    Except.error RunError.valueError
  else if batch_size < 0 then
    Except.ok initStats
  else
    Except.ok (sendLoop res num_packets batch_size.toNat 0 initStats)

/-- Throughput computation of `print_stats` (src/stressweb.py line 90):
`packets_per_second = self.sent_packets / duration if duration > 0 else 0`. -/
def packets_per_second (sent_packets : Nat) (duration : ℚ) : ℚ :=
  if duration > 0 then (sent_packets : ℚ) / duration else 0

/-- The values reported by a completed `print_stats` call. -/
structure StatsReport where
  sent_packets : Nat
  success_packets : Nat
  failed_packets : Nat
  success_pct : ℚ
  failed_pct : ℚ
  duration : ℚ
  speed : ℚ
  deriving DecidableEq

/-- `PacketSender.print_stats` (src/stressweb.py lines 87-99).
`duration = end_time - start_time`; the throughput is guarded
(`if duration > 0 else 0`, line 90) and cannot fault, but the success and
failure percentages at lines 95-96 compute `success_packets/sent_packets*100`
and `failed_packets/sent_packets*100` unguarded, and Python division raises
`ZeroDivisionError` when `sent_packets == 0`, aborting the report. -/
def print_stats (s : Stats) (start_time end_time : ℚ) : Except RunError StatsReport :=
  let duration := end_time - start_time
  let pps := packets_per_second s.sent_packets duration
  if s.sent_packets = 0 then
    Except.error RunError.zeroDivisionError
  else
    Except.ok
      { sent_packets := s.sent_packets,
        success_packets := s.success_packets,
        failed_packets := s.failed_packets,
        success_pct := (s.success_packets : ℚ) / (s.sent_packets : ℚ) * 100,
        failed_pct := (s.failed_packets : ℚ) / (s.sent_packets : ℚ) * 100,
        duration := duration,
        speed := pps }

/-- The whole of `PacketSender.send_batch_async` (src/stressweb.py
lines 63-85): the dispatch loop followed by the `self.print_stats()` call of
line 85.  `start_time`/`end_time` are the two wall-clock samples of lines 65
and 84, external inputs to the model. -/
def send_batch_async (res : Nat → GatherResult) (num_packets : Nat) (batch_size : Int)
    (start_time end_time : ℚ) : Except RunError (Stats × StatsReport) := do
  let s ← send_batch_async_dispatch res num_packets batch_size
  let r ← print_stats s start_time end_time
  pure (s, r)

/-- The method restriction `argparse` enforces at startup
(src/stressweb.py line 107): `choices=["GET", "POST"]`, case-sensitive. -/
def argparse_method_ok (m : String) : Bool :=
  m = "GET" || m = "POST"

/-- Everything `main` (src/stressweb.py lines 102-121) validates before
calling `send_batch_async`: `argparse` checks that `-n`, `-c`, `-b` parse as
integers (`type=int`, any sign) and that `-m` is one of the two choices.
No positivity check is performed on any of the three integers. -/
def main_startup_ok (m : String) (_num_packets _concurrency _batch_size : Int) : Bool :=
  argparse_method_ok m

/-- A configuration error in the sense of the spec: invalid/unsupported
method, non-positive concurrency, or non-positive batch size. -/
def config_error (m : String) (concurrency batch_size : Int) : Prop :=
  ¬(m = "GET" ∨ m = "POST") ∨ concurrency ≤ 0 ∨ batch_size ≤ 0

/-- Python `str.upper()`: upper-case every character of the string.  For the
ASCII method strings the claims range over, `Char.toUpper` coincides with
Python's per-character uppercasing. -/
def py_upper (s : String) : String :=
  ⟨s.data.map Char.toUpper⟩

/-- `PacketSender.__init__` (src/stressweb.py lines 9-20), restricted to the
fields the claims are about; the method is stored upper-cased:
`self.method = method.upper()`. -/
structure PacketSender where
  url : String
  num_packets : Nat
  concurrency : Int
  method : String
  deriving DecidableEq

/-- The constructor normalisation of `__init__`: every field is stored as
given except `method`, stored as `method.upper()`. -/
def PacketSender.init (url : String) (num_packets : Nat) (concurrency : Int)
    (method : String) : PacketSender :=
  { url := url, num_packets := num_packets, concurrency := concurrency,
    method := py_upper method }

/-- All case spellings of `GET`. -/
def caseVariantsGET : List String :=
  ["get", "geT", "gEt", "gET", "Get", "GeT", "GEt", "GET"]

/-- All case spellings of `POST`. -/
def caseVariantsPOST : List String :=
  ["post", "posT", "poSt", "poST", "pOst", "pOsT", "pOSt", "pOST",
   "Post", "PosT", "PoSt", "PoST", "POst", "POsT", "POSt", "POST"]

/-- A result oracle under which every attempt returns Python `True`. -/
def allSuccess : Nat → GatherResult :=
  fun _ => GatherResult.ret (some true)

/-! ### Counting lemmas about one batch fold -/

theorem batchResults_length (res : Nat → GatherResult) (i current : Nat) :
    (batchResults res i current).length = current := by
  simp [batchResults]

theorem foldBatch_sent (current : Nat) (results : List GatherResult) (s : Stats) :
    (foldBatch current results s).sent_packets = s.sent_packets + current := rfl

theorem foldBatch_success_failed (current : Nat) (results : List GatherResult) (s : Stats) :
    (foldBatch current results s).success_packets + (foldBatch current results s).failed_packets
      = s.success_packets + s.failed_packets + results.length := by
  have h := List.length_eq_length_filter_add (l := results) is_True
  simp only [foldBatch]
  omega

theorem foldBatch_inv (current : Nat) (results : List GatherResult) (s : Stats)
    (hlen : results.length = current)
    (hinv : s.sent_packets = s.success_packets + s.failed_packets) :
    (foldBatch current results s).sent_packets
      = (foldBatch current results s).success_packets
        + (foldBatch current results s).failed_packets := by
  have h1 := foldBatch_sent current results s
  have h2 := foldBatch_success_failed current results s
  omega

/-! ### Lemmas about the batch loop -/

theorem sendLoop_sent (res : Nat → GatherResult) (total bs : Nat) (hbs : 0 < bs) (i : Nat)
    (s : Stats) :
    (sendLoop res total bs i s).sent_packets = s.sent_packets + (total - i) := by
  rw [sendLoop]
  split
  · rename_i h
    rw [sendLoop_sent res total bs hbs (i + bs), foldBatch_sent]
    omega
  · rename_i h
    omega
termination_by total - i
decreasing_by simp_wf; omega

theorem sendLoop_success_failed (res : Nat → GatherResult) (total bs : Nat) (hbs : 0 < bs)
    (i : Nat) (s : Stats) :
    (sendLoop res total bs i s).success_packets + (sendLoop res total bs i s).failed_packets
      = s.success_packets + s.failed_packets + (total - i) := by
  rw [sendLoop]
  split
  · rename_i h
    rw [sendLoop_success_failed res total bs hbs (i + bs)]
    have h2 := foldBatch_success_failed (min bs (total - i))
      (batchResults res i (min bs (total - i))) s
    have h3 := batchResults_length res i (min bs (total - i))
    omega
  · rename_i h
    omega
termination_by total - i
decreasing_by simp_wf; omega

theorem sendLoop_inv (res : Nat → GatherResult) (total bs i : Nat) (s : Stats)
    (hinv : s.sent_packets = s.success_packets + s.failed_packets) :
    (sendLoop res total bs i s).sent_packets
      = (sendLoop res total bs i s).success_packets
        + (sendLoop res total bs i s).failed_packets := by
  rw [sendLoop]
  split
  · rename_i h
    exact sendLoop_inv res total bs (i + bs) _
      (foldBatch_inv _ _ _ (batchResults_length res i _) hinv)
  · rename_i h
    exact hinv
termination_by total - i
decreasing_by simp_wf; omega

theorem sendLoop_sent_mono (res : Nat → GatherResult) (total bs i : Nat) (s : Stats) :
    s.sent_packets ≤ (sendLoop res total bs i s).sent_packets := by
  rw [sendLoop]
  split
  · rename_i h
    have hrec := sendLoop_sent_mono res total bs (i + bs)
      (foldBatch (min bs (total - i)) (batchResults res i (min bs (total - i))) s)
    rw [foldBatch_sent] at hrec
    omega
  · rename_i h
    exact Nat.le_refl _
termination_by total - i
decreasing_by simp_wf; omega

theorem sendLoopTrace_inv (res : Nat → GatherResult) (total bs i : Nat) (s : Stats)
    (hinv : s.sent_packets = s.success_packets + s.failed_packets) :
    ∀ st ∈ sendLoopTrace res total bs i s,
      st.sent_packets = st.success_packets + st.failed_packets := by
  intro st hst
  rw [sendLoopTrace] at hst
  split at hst
  · rename_i h
    rcases List.mem_cons.mp hst with rfl | hmem
    · exact foldBatch_inv _ _ _ (batchResults_length res i _) hinv
    · exact sendLoopTrace_inv res total bs (i + bs) _
        (foldBatch_inv _ _ _ (batchResults_length res i _) hinv) st hmem
  · rename_i h
    simp at hst
termination_by total - i
decreasing_by simp_wf; omega

theorem sendLoopTrace_chain (res : Nat → GatherResult) (total bs i : Nat) (s : Stats) :
    List.Chain' (fun a b => a.sent_packets ≤ b.sent_packets)
      (s :: sendLoopTrace res total bs i s) := by
  rw [sendLoopTrace]
  split
  · rename_i h
    refine List.chain'_cons.mpr ⟨?_, sendLoopTrace_chain res total bs (i + bs) _⟩
    rw [foldBatch_sent]
    exact Nat.le_add_right _ _
  · rename_i h
    exact List.chain'_singleton s
termination_by total - i
decreasing_by simp_wf; omega

theorem sendLoopTrace_getLast? (res : Nat → GatherResult) (total bs i : Nat) (s : Stats) :
    (s :: sendLoopTrace res total bs i s).getLast? = some (sendLoop res total bs i s) := by
  rw [sendLoopTrace, sendLoop]
  split
  · rename_i h
    rw [List.getLast?_cons_cons]
    exact sendLoopTrace_getLast? res total bs (i + bs) _
  · rename_i h
    rfl
termination_by total - i
decreasing_by simp_wf; omega

/-! ### Lemmas about the batch-size partition -/

theorem batchSizesFrom_sum (total bs : Nat) (hbs : 0 < bs) (i : Nat) :
    (batchSizesFrom total bs i).sum = total - i := by
  rw [batchSizesFrom]
  split
  · rename_i h
    rw [List.sum_cons, batchSizesFrom_sum total bs hbs (i + bs)]
    omega
  · rename_i h
    simp only [List.sum_nil]
    omega
termination_by total - i
decreasing_by simp_wf; omega

theorem batchSizesFrom_length (total bs : Nat) (hbs : 0 < bs) (i : Nat) :
    (batchSizesFrom total bs i).length = (total - i + bs - 1) / bs := by
  rw [batchSizesFrom]
  split
  · rename_i h
    rw [List.length_cons, batchSizesFrom_length total bs hbs (i + bs)]
    rcases Nat.lt_or_ge (total - i) bs with hlt | hge
    · have h0 : total - (i + bs) = 0 := by omega
      rw [h0]
      have h1 : 0 + bs - 1 = bs - 1 := by omega
      rw [h1, Nat.div_eq_of_lt (by omega)]
      have h2 : total - i + bs - 1 = (total - i - 1) + bs := by omega
      rw [h2, Nat.add_div_right _ hbs, Nat.div_eq_of_lt (by omega)]
    · have h1 : total - (i + bs) + bs - 1 = total - i - 1 := by omega
      have h2 : total - i + bs - 1 = (total - i - 1) + bs := by omega
      rw [h1, h2, Nat.add_div_right _ hbs]
  · rename_i h
    have h0 : total - i = 0 := by omega
    simp only [List.length_nil, h0]
    exact (Nat.div_eq_of_lt (by omega)).symm
termination_by total - i
decreasing_by simp_wf; omega

theorem batchSizesFrom_ne_nil (total bs : Nat) (hbs : 0 < bs) (i : Nat) (hi : i < total) :
    batchSizesFrom total bs i ≠ [] := by
  rw [batchSizesFrom, dif_pos ⟨hi, hbs⟩]
  exact List.cons_ne_nil _ _

theorem batchSizesFrom_dropLast (total bs : Nat) (hbs : 0 < bs) (i : Nat) :
    ∀ x ∈ (batchSizesFrom total bs i).dropLast, x = bs := by
  intro x hx
  rw [batchSizesFrom] at hx
  split at hx
  · rename_i h
    by_cases h2 : i + bs < total
    · rw [List.dropLast_cons_of_ne_nil (batchSizesFrom_ne_nil total bs hbs (i + bs) h2)] at hx
      rcases List.mem_cons.mp hx with rfl | hmem
      · omega
      · exact batchSizesFrom_dropLast total bs hbs (i + bs) x hmem
    · have hnil : batchSizesFrom total bs (i + bs) = [] := by
        rw [batchSizesFrom, dif_neg]
        omega
      rw [hnil] at hx
      simp at hx
  · rename_i h
    simp at hx
termination_by total - i
decreasing_by simp_wf; omega

theorem batchSizesFrom_getLast? (total bs : Nat) (hbs : 0 < bs) (i : Nat) (hi : i < total) :
    (batchSizesFrom total bs i).getLast?
      = some ((total - i) - bs * ((batchSizesFrom total bs i).length - 1)) := by
  rw [batchSizesFrom, dif_pos ⟨hi, hbs⟩]
  by_cases h2 : i + bs < total
  · have hrec := batchSizesFrom_getLast? total bs hbs (i + bs) h2
    obtain ⟨b, t2, ht⟩ :=
      List.exists_cons_of_ne_nil (batchSizesFrom_ne_nil total bs hbs (i + bs) h2)
    rw [ht] at hrec ⊢
    rw [List.getLast?_cons_cons, hrec]
    congr 1
    simp only [List.length_cons, Nat.add_sub_cancel]
    have hm : bs * (t2.length + 1) = bs * t2.length + bs := by ring
    omega
  · have hnil : batchSizesFrom total bs (i + bs) = [] := by
      rw [batchSizesFrom, dif_neg]
      omega
    rw [hnil]
    simp only [List.getLast?_singleton, List.length_cons, List.length_nil,
      Nat.add_sub_cancel, Nat.mul_zero, Nat.sub_zero, Option.some.injEq]
    omega
termination_by total - i
decreasing_by simp_wf; omega

/-! ### A completed statistics report -/

theorem print_stats_ok_of_sent_ne_zero (s : Stats) (t0 t1 : ℚ)
    (h : ¬ s.sent_packets = 0) :
    print_stats s t0 t1 = Except.ok
      { sent_packets := s.sent_packets, success_packets := s.success_packets,
        failed_packets := s.failed_packets,
        success_pct := (s.success_packets : ℚ) / (s.sent_packets : ℚ) * 100,
        failed_pct := (s.failed_packets : ℚ) / (s.sent_packets : ℚ) * 100,
        duration := t1 - t0,
        speed := packets_per_second s.sent_packets (t1 - t0) } := by
  simp [print_stats, h]

/-! ### Claim theorems -/

/-- C1: for every valid run configuration (`total_requests >= 0`,
`batch_size > 0`, `concurrency > 0`) and every behaviour of the request
attempts, the batch dispatch of `send_batch_async` completes and leaves the
accumulated counters with
`sent_packets = success_packets + failed_packets = num_packets`; moreover,
whenever `num_packets > 0`, the whole of `send_batch_async` (including the
final `print_stats` call) completes with those counter values. -/
theorem C1_run_counters (res : Nat → GatherResult) (num_packets : Nat)
    (batch_size concurrency : Int) (hb : 0 < batch_size) (hc : 0 < concurrency) :
    (∃ st : Stats,
        send_batch_async_dispatch res num_packets batch_size = Except.ok st ∧
        st.sent_packets = st.success_packets + st.failed_packets ∧
        st.sent_packets = num_packets) ∧
    (∀ t0 t1 : ℚ, 0 < num_packets →
      ∃ st : Stats, ∃ r : StatsReport,
        send_batch_async res num_packets batch_size t0 t1 = Except.ok (st, r) ∧
        st.sent_packets = st.success_packets + st.failed_packets ∧
        st.sent_packets = num_packets) := by
  have hbN : 0 < batch_size.toNat := by omega
  have hdisp : send_batch_async_dispatch res num_packets batch_size
      = Except.ok (sendLoop res num_packets batch_size.toNat 0 initStats) := by
    rw [send_batch_async_dispatch, if_neg (by omega), if_neg (by omega)]
  have hsent : (sendLoop res num_packets batch_size.toNat 0 initStats).sent_packets
      = num_packets := by
    rw [sendLoop_sent res num_packets batch_size.toNat hbN 0 initStats]
    simp [initStats]
  have hinv : (sendLoop res num_packets batch_size.toNat 0 initStats).sent_packets
      = (sendLoop res num_packets batch_size.toNat 0 initStats).success_packets
        + (sendLoop res num_packets batch_size.toNat 0 initStats).failed_packets :=
    sendLoop_inv res num_packets batch_size.toNat 0 initStats rfl
  refine ⟨⟨_, hdisp, hinv, hsent⟩, ?_⟩
  intro t0 t1 hn
  have hne : ¬ (sendLoop res num_packets batch_size.toNat 0 initStats).sent_packets = 0 := by
    omega
  obtain ⟨r, hr⟩ : ∃ r, print_stats (sendLoop res num_packets batch_size.toNat 0 initStats)
      t0 t1 = Except.ok r :=
    ⟨_, print_stats_ok_of_sent_ne_zero _ t0 t1 hne⟩
  refine ⟨_, r, ?_, hinv, hsent⟩
  simp only [send_batch_async, hdisp, hr, bind, Except.bind, pure, Except.pure]

/-- Witness for C1 at `num_packets = 5`, `batch_size = 2`, `concurrency = 3`. -/
theorem C1_run_counters_witness :
    (0 : Int) < 2 ∧ (0 : Int) < 3 ∧
    ((∃ st : Stats,
        send_batch_async_dispatch allSuccess 5 2 = Except.ok st ∧
        st.sent_packets = st.success_packets + st.failed_packets ∧
        st.sent_packets = 5) ∧
    (∀ t0 t1 : ℚ, 0 < 5 →
      ∃ st : Stats, ∃ r : StatsReport,
        send_batch_async allSuccess 5 2 t0 t1 = Except.ok (st, r) ∧
        st.sent_packets = st.success_packets + st.failed_packets ∧
        st.sent_packets = 5)) :=
  ⟨by decide, by decide, C1_run_counters allSuccess 5 2 3 (by decide) (by decide)⟩

/-- C2: for `total_requests >= 0` and `batch_size > 0`, the loop head of
`send_batch_async` (lines 71-73) partitions the total into consecutive
batches: the batch count is `ceil(total / batch_size)`
(= `(total + batch_size - 1) / batch_size` in `Nat` division), every batch
except possibly the last has size `batch_size`, the last batch (when one
exists, i.e. `total > 0`) has size
`total - batch_size * (batch_count - 1)`, and the batch sizes sum to
`total`. -/
theorem C2_batch_partition (total bs : Nat) (hbs : 0 < bs) :
    (batchList total bs).length = (total + bs - 1) / bs ∧
    (∀ x ∈ (batchList total bs).dropLast, x = bs) ∧
    (0 < total → (batchList total bs).getLast?
        = some (total - bs * ((batchList total bs).length - 1))) ∧
    (batchList total bs).sum = total := by
  refine ⟨?_, ?_, ?_, ?_⟩
  · rw [batchList, batchSizesFrom_length total bs hbs 0, Nat.sub_zero]
  · exact batchSizesFrom_dropLast total bs hbs 0
  · intro htotal
    rw [batchList, batchSizesFrom_getLast? total bs hbs 0 htotal, Nat.sub_zero]
  · rw [batchList, batchSizesFrom_sum total bs hbs 0, Nat.sub_zero]

/-- Witness for C2 at `total = 25`, `batch_size = 10` (the spec scenario:
3 batches of sizes `[10, 10, 5]`). -/
theorem C2_batch_partition_witness :
    0 < 10 ∧
    ((batchList 25 10).length = (25 + 10 - 1) / 10 ∧
    (∀ x ∈ (batchList 25 10).dropLast, x = 10) ∧
    (0 < 25 → (batchList 25 10).getLast?
        = some (25 - 10 * ((batchList 25 10).length - 1))) ∧
    (batchList 25 10).sum = 25) :=
  ⟨by decide, C2_batch_partition 25 10 (by decide)⟩

/-- C3 counterexample: with `total_requests = 0` (and the default
`batch_size = 10000`), `send_batch_async` runs zero batches and then raises
`ZeroDivisionError` inside `print_stats`, because the success-percentage
computation divides by `sent_packets = 0`.  The claim that the statistics are
reported with undefined-safe percentages and no division fault is therefore
false on the code. -/
theorem C3_zero_total_counterexample :
    send_batch_async allSuccess 0 10000 0 0 = Except.error RunError.zeroDivisionError := by
  simp only [send_batch_async, send_batch_async_dispatch]
  norm_num
  rw [sendLoop]
  simp [initStats, print_stats, Except.bind, Except.map, bind]

/-- C3 amended: when `total_requests = 0` and `batch_size > 0`, zero batches
run, the counters stay `sent = success = failure = 0`, and the throughput
value is `0` without any fault in the throughput computation; but the final
statistics report does not complete: `print_stats` raises `ZeroDivisionError`
when computing the success percentage, because `sent_packets = 0` and the
percentage divisions are unguarded. -/
theorem C3_zero_total_amended (res : Nat → GatherResult) (batch_size : Int)
    (hb : 0 < batch_size) (t0 t1 : ℚ) :
    send_batch_async_dispatch res 0 batch_size = Except.ok initStats ∧
    batchList 0 batch_size.toNat = [] ∧
    initStats.sent_packets = 0 ∧
    initStats.success_packets = 0 ∧
    initStats.failed_packets = 0 ∧
    packets_per_second initStats.sent_packets (t1 - t0) = 0 ∧
    print_stats initStats t0 t1 = Except.error RunError.zeroDivisionError ∧
    send_batch_async res 0 batch_size t0 t1 = Except.error RunError.zeroDivisionError := by
  have hdisp : send_batch_async_dispatch res 0 batch_size = Except.ok initStats := by
    rw [send_batch_async_dispatch, if_neg (by omega), if_neg (by omega), sendLoop,
      dif_neg (by omega)]
  have hps : print_stats initStats t0 t1 = Except.error RunError.zeroDivisionError := by
    simp [print_stats, initStats]
  refine ⟨hdisp, ?_, rfl, rfl, rfl, ?_, hps, ?_⟩
  · rw [batchList, batchSizesFrom, dif_neg (by omega)]
  · rw [packets_per_second]
    split <;> simp [initStats]
  · simp only [send_batch_async, hdisp, hps, bind, Except.bind]

/-- Witness for C3 amended at `batch_size = 10000`, `t0 = 0`, `t1 = 1`. -/
theorem C3_zero_total_amended_witness :
    (0 : Int) < 10000 ∧
    (send_batch_async_dispatch allSuccess 0 10000 = Except.ok initStats ∧
    batchList 0 (10000 : Int).toNat = [] ∧
    initStats.sent_packets = 0 ∧
    initStats.success_packets = 0 ∧
    initStats.failed_packets = 0 ∧
    packets_per_second initStats.sent_packets ((1 : ℚ) - 0) = 0 ∧
    print_stats initStats 0 1 = Except.error RunError.zeroDivisionError ∧
    send_batch_async allSuccess 0 10000 0 1 = Except.error RunError.zeroDivisionError) :=
  ⟨by decide, C3_zero_total_amended allSuccess 10000 (by decide) 0 1⟩

/-- C4 counterexample: the async attempt does not always return an Outcome.
With the stored method `"PUT"` (reachable by constructing `PacketSender`
directly) and a received response of status `200 < 400`, the claim predicts
Success, but `send_single_packet_async` falls through its `if/elif` and
returns Python `None` -- neither Success (`some true`) nor Failure
(`some false`). -/
theorem C4_attempt_counterexample :
    send_single_packet_async "PUT" (Except.ok 200) = none ∧
    send_single_packet_async "PUT" (Except.ok 200) ≠ some true ∧
    send_single_packet_async "PUT" (Except.ok 200) ≠ some false := by
  decide

/-- C4 amended: neither attempt operation ever raises to its caller (both are
total functions of the method and the transport behaviour).  The synchronous
attempt always returns an Outcome: Success iff the method is `"GET"` or
`"POST"` and a response with status `< 400` is received, Failure in every
other case (any status `>= 400`, any raised transport error, and the
unsupported-method case, where the `UnboundLocalError` on `response` is
swallowed by the `except`).  The async attempt behaves the same for methods
`"GET"`/`"POST"` (Success iff status `< 400`, Failure on any raised error),
but for any other stored method it returns `None` instead of an Outcome. -/
theorem C4_attempt_classification (method : String) (resp : HttpOutcome) :
    (∀ status : Nat, resp = Except.ok status → (method = "GET" ∨ method = "POST") →
        (send_single_packet method resp = true ↔ status < 400) ∧
        send_single_packet_async method resp = some (decide (status < 400))) ∧
    (∀ e : TransportError, resp = Except.error e →
        send_single_packet method resp = false ∧
        ((method = "GET" ∨ method = "POST") →
          send_single_packet_async method resp = some false)) ∧
    (¬(method = "GET" ∨ method = "POST") →
        send_single_packet method resp = false ∧
        send_single_packet_async method resp = none) := by
  refine ⟨?_, ?_, ?_⟩
  · rintro status rfl hm
    constructor
    · simp [send_single_packet, hm]
    · simp [send_single_packet_async, hm]
  · rintro e rfl
    constructor
    · rw [send_single_packet]
      split <;> rfl
    · intro hm
      simp [send_single_packet_async, hm]
  · intro hm
    constructor
    · simp [send_single_packet, hm]
    · simp [send_single_packet_async, hm]

/-- Witness for C4 amended at `method = "GET"`, `resp = ok 200`. -/
theorem C4_attempt_classification_witness :
    (Except.ok 200 = (Except.ok 200 : HttpOutcome)) ∧
    ("GET" = "GET" ∨ "GET" = "POST") ∧
    ((send_single_packet "GET" (Except.ok 200) = true ↔ 200 < 400) ∧
      send_single_packet_async "GET" (Except.ok 200) = some (decide (200 < 400))) :=
  ⟨rfl, Or.inl rfl,
    (C4_attempt_classification "GET" (Except.ok 200)).1 200 rfl (Or.inl rfl)⟩

/-- C5: every batch fold adds exactly the batch size to `sent_packets` and
exactly the batch size to `success_packets + failed_packets` (the gathered
results list has one slot per task), so the invariant
`sent = success + failure` holds after every batch fold of a run -- the trace
of counter states after each fold all satisfy it -- and `sent_packets` is
monotonically non-decreasing along that trace, whose last element is the
state the loop returns. -/
theorem C5_fold_invariant (res : Nat → GatherResult) (total bs i current : Nat)
    (results : List GatherResult) (s : Stats)
    (hlen : results.length = current)
    (hinv : s.sent_packets = s.success_packets + s.failed_packets) :
    (foldBatch current results s).sent_packets = s.sent_packets + current ∧
    (foldBatch current results s).success_packets
        + (foldBatch current results s).failed_packets
      = (s.success_packets + s.failed_packets) + current ∧
    s.sent_packets ≤ (foldBatch current results s).sent_packets ∧
    (foldBatch current results s).sent_packets
      = (foldBatch current results s).success_packets
        + (foldBatch current results s).failed_packets ∧
    (∀ st ∈ sendLoopTrace res total bs i s,
        st.sent_packets = st.success_packets + st.failed_packets) ∧
    List.Chain' (fun a b => a.sent_packets ≤ b.sent_packets)
      (s :: sendLoopTrace res total bs i s) ∧
    (s :: sendLoopTrace res total bs i s).getLast? = some (sendLoop res total bs i s) := by
  have h1 := foldBatch_sent current results s
  have h2 := foldBatch_success_failed current results s
  exact ⟨h1, by omega, by omega, by omega,
    sendLoopTrace_inv res total bs i s hinv,
    sendLoopTrace_chain res total bs i s,
    sendLoopTrace_getLast? res total bs i s⟩

/-- Witness for C5 at a 2-element batch (one `True`, one collected exception)
folded into the zero counters, inside a run with `total = 4`, `bs = 2`. -/
theorem C5_fold_invariant_witness :
    ([GatherResult.ret (some true), GatherResult.exc TransportError.timeout].length = 2) ∧
    (initStats.sent_packets = initStats.success_packets + initStats.failed_packets) ∧
    ((foldBatch 2 [GatherResult.ret (some true), GatherResult.exc TransportError.timeout]
        initStats).sent_packets = initStats.sent_packets + 2 ∧
    (foldBatch 2 [GatherResult.ret (some true), GatherResult.exc TransportError.timeout]
          initStats).success_packets
        + (foldBatch 2 [GatherResult.ret (some true), GatherResult.exc TransportError.timeout]
          initStats).failed_packets
      = (initStats.success_packets + initStats.failed_packets) + 2 ∧
    initStats.sent_packets
      ≤ (foldBatch 2 [GatherResult.ret (some true), GatherResult.exc TransportError.timeout]
          initStats).sent_packets ∧
    (foldBatch 2 [GatherResult.ret (some true), GatherResult.exc TransportError.timeout]
        initStats).sent_packets
      = (foldBatch 2 [GatherResult.ret (some true), GatherResult.exc TransportError.timeout]
          initStats).success_packets
        + (foldBatch 2 [GatherResult.ret (some true), GatherResult.exc TransportError.timeout]
          initStats).failed_packets ∧
    (∀ st ∈ sendLoopTrace allSuccess 4 2 0 initStats,
        st.sent_packets = st.success_packets + st.failed_packets) ∧
    List.Chain' (fun a b => a.sent_packets ≤ b.sent_packets)
      (initStats :: sendLoopTrace allSuccess 4 2 0 initStats) ∧
    (initStats :: sendLoopTrace allSuccess 4 2 0 initStats).getLast?
      = some (sendLoop allSuccess 4 2 0 initStats)) :=
  ⟨rfl, rfl, C5_fold_invariant allSuccess 4 2 0 2
    [GatherResult.ret (some true), GatherResult.exc TransportError.timeout]
    initStats rfl rfl⟩

/-- C6 counterexample: the configuration with method `"GET"`,
`concurrency = 100` and `batch_size = 0` is a configuration error in the
spec's sense, yet startup validation accepts it (argparse only checks the
method), and the failure only arises mid-run: `send_batch_async` raises
`ValueError` from `range(0, n, 0)` after the run has started.  Likewise
`concurrency = 0` is accepted at startup and the dispatch then runs to
completion, issuing all attempts, with no error at all. -/
theorem C6_startup_counterexample :
    config_error "GET" 100 0 ∧
    main_startup_ok "GET" 1000000 100 0 = true ∧
    send_batch_async_dispatch allSuccess 5 0 = Except.error RunError.valueError ∧
    config_error "GET" 0 5 ∧
    main_startup_ok "GET" 10 0 5 = true ∧
    (sendLoop allSuccess 10 5 0 initStats).sent_packets = 10 ∧
    send_batch_async_dispatch allSuccess 10 5
      = Except.ok (sendLoop allSuccess 10 5 0 initStats) := by
  refine ⟨Or.inr (Or.inr le_rfl), by decide, by simp [send_batch_async_dispatch],
    Or.inr (Or.inl le_rfl), by decide, ?_, ?_⟩
  · rw [sendLoop_sent allSuccess 10 5 (by decide) 0 initStats]
    rfl
  · rw [send_batch_async_dispatch, if_neg (by decide), if_neg (by decide)]
    rfl

/-- C6 amended: only the invalid/unsupported HTTP method is rejected before
any batch begins (by the argparse `choices` check); non-positive concurrency
and non-positive batch size pass startup validation.  `batch_size = 0` makes
`send_batch_async` raise `ValueError` mid-run; `batch_size < 0` makes the
loop run zero batches (all counters stay `0`, so the final report then
faults); non-positive concurrency is forwarded to the connection pool
without any check and the run proceeds. -/
theorem C6_startup_validation (m : String) (n c b : Int) (res : Nat → GatherResult)
    (total : Nat) :
    (main_startup_ok m n c b = false ↔ ¬(m = "GET" ∨ m = "POST")) ∧
    (b = 0 → send_batch_async_dispatch res total b = Except.error RunError.valueError) ∧
    (b < 0 → send_batch_async_dispatch res total b = Except.ok initStats) := by
  refine ⟨?_, ?_, ?_⟩
  · simp [main_startup_ok, argparse_method_ok, not_or]
  · rintro rfl
    simp [send_batch_async_dispatch]
  · intro hb
    rw [send_batch_async_dispatch, if_neg (by omega), if_pos hb]

/-- Witness for C6 amended at `b = 0`. -/
theorem C6_startup_validation_witness :
    ((0 : Int) = 0) ∧
    send_batch_async_dispatch allSuccess 7 0 = Except.error RunError.valueError :=
  ⟨rfl, (C6_startup_validation "GET" 1000000 100 0 allSuccess 7).2.1 rfl⟩

/-- C7: the throughput of `print_stats` is `sent / (end_time - start_time)`,
defined as `0` whenever the duration is `<= 0`, and the throughput
computation never faults: the division is guarded by `duration > 0`, and for
any `sent_packets ≠ 0` the whole report completes for every duration,
including zero and negative ones, with the guarded throughput value. -/
theorem C7_throughput (s : Stats) (t0 t1 : ℚ) :
    (t1 - t0 ≤ 0 → packets_per_second s.sent_packets (t1 - t0) = 0) ∧
    (0 < t1 - t0 →
      packets_per_second s.sent_packets (t1 - t0) = (s.sent_packets : ℚ) / (t1 - t0)) ∧
    (¬ s.sent_packets = 0 →
      print_stats s t0 t1 = Except.ok
        { sent_packets := s.sent_packets, success_packets := s.success_packets,
          failed_packets := s.failed_packets,
          success_pct := (s.success_packets : ℚ) / (s.sent_packets : ℚ) * 100,
          failed_pct := (s.failed_packets : ℚ) / (s.sent_packets : ℚ) * 100,
          duration := t1 - t0,
          speed := packets_per_second s.sent_packets (t1 - t0) }) := by
  refine ⟨?_, ?_, print_stats_ok_of_sent_ne_zero s t0 t1⟩
  · intro h
    rw [packets_per_second, if_neg (not_lt.mpr h)]
  · intro h
    rw [packets_per_second, if_pos h]

/-- Witness for C7 at `sent = 5`, zero duration. -/
theorem C7_throughput_witness :
    ((0 : ℚ) - 0 ≤ 0) ∧
    packets_per_second (Stats.mk 5 3 2).sent_packets ((0 : ℚ) - 0) = 0 :=
  ⟨by norm_num, (C7_throughput (Stats.mk 5 3 2) 0 0).1 (by norm_num)⟩

/-- C9: the batch fold counts as Failure every gathered result that is not
exactly the boolean `True`: the failed counter increases by the number of
results `r` with `r is not True`, which includes `False`, exceptions
collected by `gather(..., return_exceptions=True)`, and the `None` the async
attempt returns when the stored method is neither `"GET"` nor `"POST"`;
consequently success count plus failure count grows by exactly the length of
the results list, whatever the attempts return. -/
theorem C9_fold_classification (current : Nat) (results : List GatherResult) (s : Stats) :
    (foldBatch current results s).success_packets
        + (foldBatch current results s).failed_packets
      = s.success_packets + s.failed_packets + results.length ∧
    (foldBatch current results s).failed_packets
      = s.failed_packets + (results.filter (fun r => !is_True r)).length ∧
    (∀ r : GatherResult, is_True r = true ↔ r = GatherResult.ret (some true)) ∧
    (∀ e : TransportError, is_True (GatherResult.exc e) = false) ∧
    is_True (GatherResult.ret none) = false ∧
    (∀ m : String, ∀ resp : HttpOutcome, ¬(m = "GET" ∨ m = "POST") →
      send_single_packet_async m resp = none) := by
  refine ⟨foldBatch_success_failed current results s, rfl, ?_, fun e => rfl, rfl, ?_⟩
  · intro r
    cases r with
    | ret v =>
      cases v with
      | none => simp [is_True]
      | some b => cases b <;> simp [is_True]
    | exc e => simp [is_True]
  · intro m resp hm
    simp [send_single_packet_async, hm]

/-- Witness for C9 on a batch containing all four non-`True` result shapes. -/
theorem C9_fold_classification_witness :
    ¬("PUT" = "GET" ∨ "PUT" = "POST") ∧
    ((foldBatch 4 [GatherResult.ret (some true), GatherResult.ret (some false),
          GatherResult.ret none, GatherResult.exc TransportError.dnsFailure]
        initStats).success_packets
        + (foldBatch 4 [GatherResult.ret (some true), GatherResult.ret (some false),
          GatherResult.ret none, GatherResult.exc TransportError.dnsFailure]
        initStats).failed_packets
      = initStats.success_packets + initStats.failed_packets + 4) ∧
    send_single_packet_async "PUT" (Except.error TransportError.timeout) = none :=
  ⟨by decide,
    (C9_fold_classification 4 [GatherResult.ret (some true), GatherResult.ret (some false),
      GatherResult.ret none, GatherResult.exc TransportError.dnsFailure] initStats).1,
    (C9_fold_classification 4 [] initStats).2.2.2.2.2 "PUT"
      (Except.error TransportError.timeout) (by decide)⟩

/-- C10: the `PacketSender` constructor stores `method.upper()`, so every
lowercase or mixed-case spelling of `GET` (resp. `POST`) passed directly to
the class yields a sender state identical to the one built from the
uppercase spelling, and hence identical request behaviour; the method check
inside the send paths is performed on the normalised method. -/
theorem C10_method_case_insensitive (u : String) (n : Nat) (c : Int) (s : String) :
    (s ∈ caseVariantsGET →
      PacketSender.init u n c s = PacketSender.init u n c "GET" ∧
      (∀ resp : HttpOutcome,
        send_single_packet (PacketSender.init u n c s).method resp
          = send_single_packet "GET" resp) ∧
      (∀ resp : HttpOutcome,
        send_single_packet_async (PacketSender.init u n c s).method resp
          = send_single_packet_async "GET" resp)) ∧
    (s ∈ caseVariantsPOST →
      PacketSender.init u n c s = PacketSender.init u n c "POST" ∧
      (∀ resp : HttpOutcome,
        send_single_packet (PacketSender.init u n c s).method resp
          = send_single_packet "POST" resp) ∧
      (∀ resp : HttpOutcome,
        send_single_packet_async (PacketSender.init u n c s).method resp
          = send_single_packet_async "POST" resp)) := by
  have hg : ∀ t ∈ caseVariantsGET, py_upper t = "GET" := by decide
  have hp : ∀ t ∈ caseVariantsPOST, py_upper t = "POST" := by decide
  have hgg : py_upper "GET" = "GET" := by decide
  have hpp : py_upper "POST" = "POST" := by decide
  constructor
  · intro hs
    have h1 : py_upper s = "GET" := hg s hs
    refine ⟨?_, ?_, ?_⟩
    · simp [PacketSender.init, h1, hgg]
    · intro resp
      simp [PacketSender.init, h1]
    · intro resp
      simp [PacketSender.init, h1]
  · intro hs
    have h1 : py_upper s = "POST" := hp s hs
    refine ⟨?_, ?_, ?_⟩
    · simp [PacketSender.init, h1, hpp]
    · intro resp
      simp [PacketSender.init, h1]
    · intro resp
      simp [PacketSender.init, h1]

/-- Witness for C10 at `s = "get"`. -/
theorem C10_method_case_insensitive_witness :
    "get" ∈ caseVariantsGET ∧
    (PacketSender.init "http://x" 10 2 "get" = PacketSender.init "http://x" 10 2 "GET" ∧
    (∀ resp : HttpOutcome,
      send_single_packet (PacketSender.init "http://x" 10 2 "get").method resp
        = send_single_packet "GET" resp) ∧
    (∀ resp : HttpOutcome,
      send_single_packet_async (PacketSender.init "http://x" 10 2 "get").method resp
        = send_single_packet_async "GET" resp)) :=
  ⟨by decide,
    (C10_method_case_insensitive "http://x" 10 2 "get").1 (by decide)⟩

end StressWeb
